import Mathlib

/-!
Verification development for the habitat-connectivity spreadsheet core:
a shallow embedding of the OOXML workbook reader
(`src/habitat-connectivity-tool/xl/workbook.py`) and the batch-parameter
table extractor (`src/hnat/processing/habitat_network_algorithm.py`),
together with theorems settling the specification claims.

Modelling conventions:
* Python cell values (`int` / `float` / `str` / `None`) become the
  `CellValue` variant; Python floats are modelled by exact rationals
  (only decimal-literal parsing and zero tests are exercised by the code).
* Python exceptions become `Except String` with the exact message the
  source builds (module-level identification such as `KeyError:` is kept
  as a prefix when the source relies on a library exception).
* Python `list` indexing (negative wrap, `IndexError`) is modelled by
  `listSetPy`; `dict` becomes an insertion-ordered association list with
  Python `==` as the key equality, matching CPython semantics for the
  values that occur here.
* XML documents are modelled by the `Xml` tree with namespace-resolved
  local tag names (the source uses one fixed namespace per document).
-/

/-- Cell value variant: integer, floating point, string, or absent
(Python `None` / empty cell). A float is modelled exactly by decimal
components: the value is `num * 10 ^ exp10`. Only decimal literals ever
produce floats here, so the decimal model is exact. -/
inductive CellValue where
  | int (n : Int)
  | float (num : Int) (exp10 : Int)
  | str (s : String)
  | absent
deriving DecidableEq, Repr

/-- The rational value of a decimal-component float. -/
def floatVal (num exp10 : Int) : ℚ := (num : ℚ) * (10 : ℚ) ^ exp10

/-- Value equality of two decimal-component numbers
(`a * 10 ^ ea = b * 10 ^ eb`), by integer cross multiplication. -/
def decEqVal (a ea b eb : Int) : Bool :=
  if ea ≤ eb then a == b * (10 : Int) ^ (eb - ea).toNat
  else a * (10 : Int) ^ (ea - eb).toNat == b

/-- Python truthiness (`bool(x)`) for the values that occur in a grid:
`0`, `0.0`, `""` and `None` are falsy, everything else truthy. -/
def CellValue.truthy : CellValue → Bool
  | .int n => n != 0
  | .float a _ => a != 0
  | .str s => s != ""
  | .absent => false

/-- Python `==` between cell values: numbers compare by value across
`int`/`float` (`0 == 0.0` is true), strings compare by content,
`None == None`, and values of different kinds otherwise compare
unequal. -/
def CellValue.pyEq : CellValue → CellValue → Bool
  | .int a, .int b => a == b
  | .int a, .float b eb => decEqVal a 0 b eb
  | .float a ea, .int b => decEqVal a ea b 0
  | .float a ea, .float b eb => decEqVal a ea b eb
  | .str a, .str b => a == b
  | .absent, .absent => true
  | _, _ => false

/-- Python `str(x)` rendering used by `"%s"` interpolation in error
messages (float rendering approximated; the claims never inspect it). -/
def CellValue.pyStr : CellValue → String
  | .int n => toString n
  | .float a e => toString a ++ "e" ++ toString e
  | .str s => s
  | .absent => "None"

/-- A worksheet row: cell values indexed by zero-based column. -/
abbrev Row := List CellValue

/-- A worksheet grid: rows indexed by zero-based row number. -/
abbrev Grid := List Row

/-- Python list assignment `l[i] = a`: a negative index wraps by adding
`len(l)`; an index out of range raises `IndexError`. -/
def listSetPy (l : List α) (i : Int) (a : α) : Except String (List α) :=
  let n : Int := l.length
  let j := if i < 0 then i + n else i
  if 0 ≤ j ∧ j < n then .ok (l.set j.toNat a) else .error "IndexError: list assignment index out of range"

/-- Python list read `l[i]`: same index normalization as `listSetPy`. -/
def listGetPy (l : List α) (i : Int) : Except String α :=
  let n : Int := l.length
  let j := if i < 0 then i + n else i
  if h : 0 ≤ j ∧ j.toNat < l.length then .ok (l.get ⟨j.toNat, h.2⟩)
  else .error "IndexError: list index out of range"

/-- Python whitespace accepted by `int()` / `float()` around a numeral. -/
def isPyWs (c : Char) : Bool :=
  c == ' ' || c == '\t' || c == '\n' || c == '\r' || c.toNat == 11 || c.toNat == 12

/-- Strip leading and trailing whitespace from a character list. -/
def stripWs (l : List Char) : List Char :=
  ((l.dropWhile isPyWs).reverse.dropWhile isPyWs).reverse

/-- Numeric value of a digit list (most significant first). -/
def digitsVal (l : List Char) : Nat :=
  l.foldl (fun a c => a * 10 + (c.toNat - 48)) 0

/-- Model of Python `int(s)` on a string: optional surrounding
whitespace, optional sign, then one or more ASCII digits; anything else
raises `ValueError` (here: `none`). -/
def pyParseInt (s : String) : Option Int :=
  let l := stripWs s.toList
  let (sign, rest) : Int × List Char :=
    match l with
    | '+' :: r => (1, r)
    | '-' :: r => (-1, r)
    | _ => (1, l)
  if rest ≠ [] ∧ rest.all (·.isDigit) then some (sign * digitsVal rest) else none

/-- Split a mantissa character list into integer digits, fractional
digits and the remaining suffix (`some` only when shaped `d* [. d*]`
with at least one digit overall). -/
def splitMantissa (l : List Char) : Option (List Char × List Char × List Char) :=
  let ip := l.takeWhile (·.isDigit)
  let rest := l.dropWhile (·.isDigit)
  match rest with
  | '.' :: r =>
    let fp := r.takeWhile (·.isDigit)
    let rest2 := r.dropWhile (·.isDigit)
    if ip = [] ∧ fp = [] then none else some (ip, fp, rest2)
  | _ => if ip = [] then none else some (ip, [], rest)

/-- Exponent part of a float literal: optional sign then digits. -/
def pyParseExp (l : List Char) : Option Int :=
  let (es, er) : Int × List Char :=
    match l with
    | '+' :: r => (1, r)
    | '-' :: r => (-1, r)
    | _ => (1, l)
  if er ≠ [] ∧ er.all (·.isDigit) then some (es * digitsVal er) else none

/-- Model of Python `float(s)` restricted to finite decimal literals:
optional whitespace and sign, decimal mantissa, optional exponent
(`inf`/`nan` spellings and overflow-to-infinity are outside the model;
the extractor only ever meets decimal literals). The result is the
decimal-component pair `(num, exp10)` with value `num * 10 ^ exp10`. -/
def pyParseFloat (s : String) : Option (Int × Int) :=
  let l := stripWs s.toList
  let (sign, rest) : Int × List Char :=
    match l with
    | '+' :: r => (1, r)
    | '-' :: r => (-1, r)
    | _ => (1, l)
  match splitMantissa rest with
  | none => none
  | some (ip, fp, rest2) =>
    let num : Int := sign * ((digitsVal ip) * 10 ^ fp.length + digitsVal fp)
    match rest2 with
    | [] => some (num, -(fp.length : Int))
    | 'e' :: r => (pyParseExp r).map (fun e => (num, e - fp.length))
    | 'E' :: r => (pyParseExp r).map (fun e => (num, e - fp.length))
    | _ => none

/-- `ValueFromString` (workbook.py lines 25-34): try `int(s)`, then
`float(s)`, else keep the string — first success wins. -/
def ValueFromString (s : String) : CellValue :=
  match pyParseInt s with
  | some n => .int n
  | none =>
    match pyParseFloat s with
    | some p => .float p.1 p.2
    | none => .str s

/-- Insertion-ordered Python `dict` assignment `d[k] = v` over an
association list: an existing key keeps its position and gets the new
value, a new key is appended. -/
def pyDictInsert (eq : κ → κ → Bool) : List (κ × ν) → κ → ν → List (κ × ν)
  | [], k, v => [(k, v)]
  | (k0, v0) :: rest, k, v =>
    if eq k0 k then (k0, v) :: rest else (k0, v0) :: pyDictInsert eq rest k v

/-- Python `dict.get(k)`: the value of the first (unique) matching key. -/
def pyDictGet (eq : κ → κ → Bool) (d : List (κ × ν)) (k : κ) : Option ν :=
  (d.find? (fun p => eq p.1 k)).map (·.2)

/-! ## XML and zip-archive model (workbook.py SpreadsheetReader) -/

/-- Minimal XML element: tag (namespace-resolved to the local name, as
each source document uses one fixed namespace), attributes, text
content, children. -/
inductive Xml where
  | node (tag : String) (attrs : List (String × String)) (text : Option String) (children : List Xml)

def Xml.tag : Xml → String
  | .node t _ _ _ => t

def Xml.attrs : Xml → List (String × String)
  | .node _ a _ _ => a

def Xml.text : Xml → Option String
  | .node _ _ tx _ => tx

def Xml.children : Xml → List Xml
  | .node _ _ _ c => c

/-- `ElementTree` `elem.get(key)`: attribute lookup, `None` if absent. -/
def Xml.attrGet (x : Xml) (k : String) : Option String :=
  (x.attrs.find? (fun p => p.1 == k)).map (·.2)

/-- An entry of the zip package: parses as XML, or is malformed. -/
inductive ZipEntry where
  | xmlDoc (root : Xml)
  | malformed

/-- The zip package: internal path to entry. -/
abbrev Archive := List (String × ZipEntry)

/-- `Workbook._loadXml` (lines 126-128): `archive.open` raises
`KeyError` when the path is not in the archive; `ET.parse` raises
`ParseError` on malformed XML. -/
def loadXml (a : Archive) (path : String) : Except String Xml :=
  match (a.find? (fun p => p.1 == path)).map (·.2) with
  | none => .error ("KeyError: no item named " ++ path ++ " in the archive")
  | some .malformed => .error ("ParseError: " ++ path)
  | some (.xmlDoc root) => .ok root

/-- `Workbook._stripNameSpace` (lines 130-132): the suffix after the
last closing brace, or the whole tag when there is none. -/
def stripNameSpace (tag : String) : String :=
  String.mk ((tag.toList.reverse.takeWhile (fun c => c.toNat != 125)).reverse)

/-- `Workbook._loadRels` (lines 86-92): relationship id to target path,
from the fixed relationship-manifest path. Keys and values are
`elem.get` results, hence optional. -/
def loadRels (a : Archive) : Except String (List (Option String × Option String)) := do
  let root ← loadXml a "xl/_rels/workbook.xml.rels"
  .ok (root.children.foldl (fun rels child =>
    if stripNameSpace child.tag == "Relationship" then
      pyDictInsert (fun x y => x == y) rels (child.attrGet "Id") (child.attrGet "Target")
    else rels) [])

/-- `SheetDef` (lines 36-39). -/
structure SheetDef where
  name : Option String
  rid : Option String

/-- `Workbook._loadSheetDefs` (lines 94-108): one `SheetDef` per
`sheet` element under each `sheets` element, in declaration order. -/
def loadSheetDefs (a : Archive) : Except String (List SheetDef) := do
  let root ← loadXml a "xl/workbook.xml"
  .ok (root.children.foldl (fun acc child =>
    if stripNameSpace child.tag == "sheets" then
      child.children.foldl (fun acc2 child2 =>
        if stripNameSpace child2.tag == "sheet" then
          acc2 ++ [SheetDef.mk (child2.attrGet "name") (child2.attrGet "id")]
        else acc2) acc
    else acc) [])

/-- `Workbook._loadSharedStrings` (lines 110-121): loads
`xl/sharedStrings.xml` unconditionally; one entry per `si` element that
has a `t` child (an `si` without `t` contributes nothing). -/
def loadSharedStrings (a : Archive) : Except String (List (Option String)) := do
  let root ← loadXml a "xl/sharedStrings.xml"
  .ok ((root.children.filter (fun si => si.tag == "si")).foldl (fun acc si =>
    match si.children.find? (fun t => t.tag == "t") with
    | some t => acc ++ [t.text]
    | none => acc) [])

/-- The reader handle built by `Workbook.__init__` (lines 41-46). -/
structure Workbook where
  archive : Archive
  rels : List (Option String × Option String)
  sheetDefs : List SheetDef
  sharedStrings : List (Option String)

/-- `OpenWorkbook` / `Workbook.__init__` (lines 22-23, 41-46): loads
relationships, sheet definitions and shared strings in that order; any
failure propagates and `open` fails. -/
def OpenWorkbook (a : Archive) : Except String Workbook := do
  let rels ← loadRels a
  let sheetDefs ← loadSheetDefs a
  let shared ← loadSharedStrings a
  .ok (Workbook.mk a rels sheetDefs shared)

/-- `spans[spans.find(":") + 1 :]`: the part after the first colon, or
the whole string when there is no colon (`find` returns `-1`). -/
def spansAfterColon (s : String) : String :=
  let l := s.toList
  if l.any (fun c => c == ':') then String.mk ((l.dropWhile (fun c => c != ':')).tail)
  else s

/-- One cell element of a row (lines 63-72): compute the zero-based
column from the leading letter of the cell reference, then place the
resolved value — shared-string lookup when `t="s"`, else
`ValueFromString` coercion — unless the cell has no `v` child, in which
case the row is left untouched. -/
def applyCell (shared : List (Option String)) (row : Row) (c : Xml) : Except String Row := do
  let ref ← (match c.attrGet "r" with
    | some r => .ok r
    | none => .error "KeyError: r")
  let c0 ← (match ref.toList.head? with
    | some ch => .ok ch
    | none => .error "IndexError: string index out of range")
  let col : Int := (c0.toNat : Int) - 65
  let t := c.attrGet "t"
  match c.children.find? (fun v => v.tag == "v") with
  | none => .ok row
  | some vnode =>
    if t == some "s" then do
      let idxStr ← (match vnode.text with
        | some s => .ok s
        | none => .error "TypeError: int() argument must not be None")
      let idx ← (match pyParseInt idxStr with
        | some n => .ok n
        | none => .error "ValueError: invalid literal for int()")
      let sv ← listGetPy shared idx
      listSetPy row col (match sv with
        | some s => CellValue.str s
        | none => CellValue.absent)
    else
      listSetPy row col (match vnode.text with
        | none => CellValue.absent
        | some s => ValueFromString s)

/-- One `row` element (lines 59-73): pre-size the row from the `spans`
upper bound, apply each `c` child, and pair the result with the
declared 1-based row number `row["r"]`. -/
def readRowNode (shared : List (Option String)) (rowNode : Xml) :
    Except String (Int × Row) := do
  let spans ← (match rowNode.attrGet "spans" with
    | some s => .ok s
    | none => .error "KeyError: spans")
  let length ← (match pyParseInt (spansAfterColon spans) with
    | some n => .ok n
    | none => .error "ValueError: invalid literal for int()")
  let base : Row := List.replicate length.toNat CellValue.absent
  let row ← (rowNode.children.filter (fun c => c.tag == "c")).foldlM (applyCell shared) base
  let rStr ← (match rowNode.attrGet "r" with
    | some s => .ok s
    | none => .error "TypeError: int() argument must not be None")
  let r ← (match pyParseInt rStr with
    | some n => .ok n
    | none => .error "ValueError: invalid literal for int()")
  .ok (r, row)

/-- The raw `(declared number, row)` pairs of a `sheetData` element, in
document order. -/
def readRawRows (shared : List (Option String)) (sheetData : Xml) :
    Except String (List (Int × Row)) :=
  (sheetData.children.filter (fun c => c.tag == "row")).mapM (readRowNode shared)

/-- Python `max` over a list: `ValueError` when empty. -/
def pyMax : List Int → Except String Int
  | [] => .error "ValueError: max() arg is an empty sequence"
  | x :: xs => .ok (xs.foldl max x)

/-- Lines 74-78: grid of `max declared row number` rows, initially all
`[]`, each raw row written at `declaredNumber - 1`. -/
def assembleGrid (raw : List (Int × Row)) : Except String Grid := do
  let rowCount ← pyMax (raw.map Prod.fst)
  raw.foldlM (fun rows p => listSetPy rows (p.1 - 1) p.2)
    (List.replicate rowCount.toNat ([] : Row))

/-- `Workbook.loadSheetData` from the worksheet document onward (lines
56-78): find the `sheetData` element, read the raw rows, assemble the
grid. -/
def loadSheetDataXml (shared : List (Option String)) (root : Xml) :
    Except String Grid := do
  let sheetData ← (match root.children.find? (fun c => c.tag == "sheetData") with
    | some sd => .ok sd
    | none => .error "AttributeError: NoneType object has no attribute findall")
  let raw ← readRawRows shared sheetData
  assembleGrid raw

/-- `Workbook._sheetPath` (lines 123-124). -/
def Workbook.sheetPath (wb : Workbook) (index : Nat) : Except String String := do
  let sd ← (match wb.sheetDefs.get? index with
    | some sd => .ok sd
    | none => .error "IndexError: list index out of range")
  match pyDictGet (fun x y => x == y) wb.rels sd.rid with
  | some (some target) => .ok ("xl/" ++ target)
  | some none => .error "TypeError: can only concatenate str to str"
  | none => .error "KeyError: relationship id not found"

/-- `Workbook.loadSheetData` (lines 48-78). -/
def Workbook.loadSheetData (wb : Workbook) (index : Nat) : Except String Grid := do
  let path ← wb.sheetPath index
  let root ← loadXml wb.archive path
  loadSheetDataXml wb.sharedStrings root

/-! ## Table extractor (habitat_network_algorithm.py) -/

/-- Single apostrophe, used verbatim by several source error messages. -/
def apos : String := String.mk [Char.ofNat 39]

/-- `CellRef` (lines 43-44): zero-based column and row rendered as the
column letter followed by the 1-based row number. -/
def CellRef (x y : Nat) : String :=
  String.mk [Char.ofNat (65 + x)] ++ toString (y + 1)

/-- `BatchParameters.BIOTOPE_CODE_HDR` (line 48). -/
def BIOTOPE_CODE_HDR : String := "BiotopeCode"

/-- A "name or list of names" synonym parameter (the source passes
either a plain string or a list of strings and branches on
`isinstance(..., list)`). -/
inductive NameOrList where
  | single (s : String)
  | list (l : List String)

/-- The normalized name list (`[name]` for a single name). -/
def NameOrList.names : NameOrList → List String
  | .single s => [s]
  | .list l => l

/-- `ParameterSet.NAME_PARAM` (line 57). -/
def NAME_PARAM : String := "Network name"

/-- `ParameterSet.DISPERSAL_PARAM` (line 58). -/
def DISPERSAL_PARAM : String := "Average dispersal distance (metres)"

/-- `ParameterSet.NETWORK_THRESHOLD_PARAM` (line 59). -/
def NETWORK_THRESHOLD_PARAM : List String :=
  ["Network threshold", "Minimum dispersal probability"]

/-- `ParameterSet.PARAMS` (line 60). -/
def PARAMS : List NameOrList :=
  [.single NAME_PARAM, .single DISPERSAL_PARAM, .list NETWORK_THRESHOLD_PARAM]

/-- `ParameterSet.QUALITY_COLUMN` (line 62). -/
def QUALITY_COLUMN : String := "Quality"

/-- `ParameterSet.SOURCE_COLUMN` (line 63). -/
def SOURCE_COLUMN : List String := ["Source", "Reproduction"]

/-- `ParameterSet.FRICTION_COLUMN` (line 64). -/
def FRICTION_COLUMN : String := "Friction"

/-- `ParameterSet.COLUMNS` (line 65). -/
def COLUMNS : List NameOrList :=
  [.single QUALITY_COLUMN, .list SOURCE_COLUMN, .single FRICTION_COLUMN]

/-- `ParameterSet` (lines 55-69): per-group scalar parameters and data
columns, both insertion-ordered dicts keyed by the header cell value. -/
structure ParameterSet where
  parameters : List (CellValue × CellValue)
  columns : List (CellValue × List CellValue)
deriving DecidableEq, Repr

/-- `dict.get` through Python `is not None`: a stored `None` is
indistinguishable from a missing key for the source's check. -/
def pyGetNotNone (d : List (CellValue × CellValue)) (k : CellValue) : Option CellValue :=
  match pyDictGet CellValue.pyEq d k with
  | none => none
  | some .absent => none
  | some v => some v

/-- `ParameterSet.parameter` (lines 71-77): try each accepted name in
order, first value found wins; otherwise raise. The raised message
interpolates `name[0]` — the first character of the loop variable,
which after the loop holds the last name tried. -/
def ParameterSet.parameter (ps : ParameterSet) (nl : NameOrList) : Except String CellValue :=
  match nl.names.findSome? (fun name => pyGetNotNone ps.parameters (.str name)) with
  | some v => .ok v
  | none =>
    match nl.names.getLast? with
    | none => .error "NameError: name is not defined"
    | some last =>
      match last.toList.head? with
      | none => .error "IndexError: string index out of range"
      | some ch => .error ("Missing parameter " ++ apos ++ String.mk [ch] ++ apos ++ ".")

/-- `ParameterSet.column` (lines 79-85): same lookup and the same
`name[0]` interpolation slip as `ParameterSet.parameter`. -/
def ParameterSet.column (ps : ParameterSet) (nl : NameOrList) : Except String (List CellValue) :=
  match nl.names.findSome? (fun name => pyDictGet CellValue.pyEq ps.columns (.str name)) with
  | some v => .ok v
  | none =>
    match nl.names.getLast? with
    | none => .error "NameError: name is not defined"
    | some last =>
      match last.toList.head? with
      | none => .error "IndexError: string index out of range"
      | some ch => .error ("Missing parameter set column " ++ apos ++ String.mk [ch] ++ apos ++ ".")

/-- `BatchParameters` (lines 47-52). -/
structure BatchParameters where
  biotopeCodes : List CellValue
  parameterSets : List ParameterSet
deriving DecidableEq, Repr

/-- Python list read `l[i]` with a nonnegative index, as used by the
extractor (`rows[first_row + i]`, `rows[row_index]`): `IndexError` when
out of range. -/
def listGetOrIndexError (l : List α) (i : Nat) : Except String α :=
  match l.get? i with
  | some r => .ok r
  | none => .error "IndexError: list index out of range"

/-- The failing condition of `columnValues` (line 391):
`column_index >= len(row) or (not row[column_index] and 0 != row[column_index])`
— absent/out-of-range or falsy-but-not-numeric-zero. -/
def cellMissing (row : Row) (ci : Nat) : Bool :=
  decide (row.length ≤ ci) ||
    (!(row.getD ci .absent).truthy && !(CellValue.pyEq (.int 0) (row.getD ci .absent)))

/-- `HabitatNetworkAlgorithm.columnValues` (lines 387-394): read
`row_count` cells of one column starting at `first_row`; raise, naming
the cell reference, at the first missing cell. -/
def columnValues (rows : Grid) (column_index first_row : Nat) :
    Nat → Except String (List CellValue)
  | 0 => .ok []
  | n + 1 => do
    let row ← (match rows.get? first_row with
      | some r => .ok r
      | none => .error "IndexError: list index out of range")
    if cellMissing row column_index then
      .error ("Value expected in cell " ++ CellRef column_index first_row)
    else do
      let rest ← columnValues rows column_index (first_row + 1) n
      .ok (row.getD column_index .absent :: rest)

/-- Does a row contain the biotope-code header literal (Python `in`)? -/
def rowContainsCode (row : Row) : Bool :=
  row.any (fun c => c.pyEq (.str BIOTOPE_CODE_HDR))

/-- Index of the first row containing the biotope-code header. -/
def findHeaderRowIndex (rows : Grid) : Option Nat :=
  rows.findIdx? rowContainsCode

/-- Error message of lines 306-307. -/
def headerRowMissingMsg : String :=
  "Column header \"BiotopeCode\" not found."

/-- Lines 300-308: locate the header row; `if not headerRowIndex:`
treats both "not found" and "found at index 0" as missing. -/
def locateHeaderRow (rows : Grid) : Except String Nat :=
  match findHeaderRowIndex rows with
  | none => .error headerRowMissingMsg
  | some i => if i = 0 then .error headerRowMissingMsg else .ok i

/-- Python truthiness of the optional index variable. -/
def optNatTruthy : Option Nat → Bool
  | none => false
  | some n => n != 0

/-- Lines 311-319: scan rows for the name row-header label; within each
row the first match is recorded, and the outer loop breaks only when
the recorded index is truthy (so a match at column 0 does not stop the
scan). -/
def scanHeaderColumn : List Row → Option Nat → Option Nat
  | [], acc => acc
  | row :: rest, acc =>
    let acc2 := match row.findIdx? (fun c => c.pyEq (.str NAME_PARAM)) with
      | some ci => some ci
      | none => acc
    if optNatTruthy acc2 then acc2 else scanHeaderColumn rest acc2

/-- Error message of lines 320-321. -/
def headerColumnMissingMsg : String :=
  "Row header \"Network name\" not found."

/-- Lines 310-321: locate the header column among the rows above the
header row; `if not headerColumnIndex:` treats index 0 as missing. -/
def locateHeaderColumn (rows : Grid) (headerRowIndex : Nat) : Except String Nat :=
  match scanHeaderColumn (rows.take headerRowIndex) none with
  | none => .error headerColumnMissingMsg
  | some c => if c = 0 then .error headerColumnMissingMsg else .ok c

/-- Lines 322-328 body: walk the rows above the header row, recording
`label -> rowIndex` for each truthy cell at the header column
(later duplicates overwrite, insertion order kept). Note the source's
`len(row) >= headerColumnIndex` guard still allows `row[hci]` to raise
when the length equals the index. -/
def buildHeaderToRowMapAux (hci : Nat) :
    List Row → Nat → List (CellValue × Nat) →
    Except String (List (CellValue × Nat))
  | [], _, acc => .ok acc
  | row :: rest, idx, acc =>
    if hci ≤ row.length then
      match row.get? hci with
      | none => .error "IndexError: list index out of range"
      | some hn =>
        buildHeaderToRowMapAux hci rest (idx + 1)
          (if hn.truthy then pyDictInsert CellValue.pyEq acc hn idx else acc)
    else buildHeaderToRowMapAux hci rest (idx + 1) acc

/-- Lines 322-328. -/
def buildHeaderToRowMap (rows : Grid) (hri hci : Nat) :
    Except String (List (CellValue × Nat)) :=
  buildHeaderToRowMapAux hci (rows.take hri) 0 []

/-- Python `list.index`: first index of a matching value, `ValueError`
when the value does not occur. -/
def listIndexPy (row : Row) (v : CellValue) : Except String Nat :=
  match row.findIdx? (fun c => c.pyEq v) with
  | some i => .ok i
  | none => .error "ValueError: value not in list"

/-- Row-header "not found" message (lines 341-345). -/
def rowHeaderErrMsg (names : List String) : String :=
  if names.length == 1 then
    "Row header \"" ++ names.headD "" ++ "\" not found."
  else
    "None of the following row headers were found: \"" ++
      String.intercalate "\", \"" names ++ "\""

/-- Lines 334-346: require every canonical row-header concept to be
resolvable in the header-to-row map through its synonyms. -/
def validateRowHeaders (map : List (CellValue × Nat)) : Except String Unit :=
  PARAMS.forM (fun nl =>
    match nl.names.findSome? (fun h => pyDictGet CellValue.pyEq map (.str h)) with
    | some _ => .ok ()
    | none => .error (rowHeaderErrMsg nl.names))

/-- Lines 353-359: read one scalar parameter per mapped row header from
the group's first column; every cell must be truthy. -/
def readGroupParams (rows : Grid) (map : List (CellValue × Nat)) (cci : Nat) :
    Except String (List (CellValue × CellValue)) :=
  map.foldlM (fun params pr => do
    let row ← listGetOrIndexError rows pr.2
    let value := if cci < row.length then row.getD cci .absent else .absent
    if value.truthy then
      .ok (pyDictInsert CellValue.pyEq params pr.1 value)
    else
      .error ("Expected " ++ pr.1.pyStr ++ " value in cell " ++ CellRef cci pr.2)) []

/-- Lines 362-366 (inner while loop): capture header-labelled columns
until the header label runs out or is empty, or the name row shows a
non-empty value at the next column. Fuel bounds the iteration count;
each step advances the column index, so `headerRow.length + 1` fuel is
never exhausted on the call paths below. -/
def readGroupColumns (rows : Grid) (headerRow nameRow : Row) (hri nCodes : Nat) :
    Nat → List (CellValue × List CellValue) → Nat →
    Except String (List (CellValue × List CellValue) × Nat)
  | 0, _, _ => .error "fuel exhausted"
  | fuel + 1, cols, cci =>
    if cci < headerRow.length ∧ (headerRow.getD cci .absent).truthy then do
      let vs ← columnValues rows cci (hri + 1) nCodes
      let cols2 := pyDictInsert CellValue.pyEq cols (headerRow.getD cci .absent) vs
      if nameRow.length ≤ cci + 1 ∨ (nameRow.getD (cci + 1) .absent).truthy then
        .ok (cols2, cci + 1)
      else
        readGroupColumns rows headerRow nameRow hri nCodes fuel cols2 (cci + 1)
    else .ok (cols, cci)

/-- Column "not found" message (lines 377-380). -/
def columnsErrMsg (names : List String) (networkName : CellValue) : String :=
  if names.length == 1 then
    "Column \"" ++ names.headD "" ++ "\" not found for network \"" ++
      networkName.pyStr ++ "\"."
  else
    "None of the following columns were found for network \"" ++
      networkName.pyStr ++ "\": \"" ++ String.intercalate "\", \"" names ++ "\""

/-- Lines 368-381: every canonical data-column concept must have been
captured for the group. -/
def verifyColumns (params : List (CellValue × CellValue))
    (cols : List (CellValue × List CellValue)) : Except String Unit :=
  COLUMNS.forM (fun nl =>
    match nl.names.findSome? (fun n => pyDictGet CellValue.pyEq cols (.str n)) with
    | some _ => .ok ()
    | none => do
      let networkName ← (match pyDictGet CellValue.pyEq params (.str NAME_PARAM) with
        | some v => .ok v
        | none => .error "KeyError: Network name")
      .error (columnsErrMsg nl.names networkName))

/-- Lines 349-383 (outer while loop): one `ParameterSet` per
configuration group, scanning columns left to right from just right of
the header column. Fuel as in `readGroupColumns`. -/
def readParameterSets (rows : Grid) (headerRow nameRow : Row)
    (map : List (CellValue × Nat)) (hri nCodes : Nat) :
    Nat → Nat → Except String (List ParameterSet)
  | 0, _ => .error "fuel exhausted"
  | fuel + 1, cci =>
    if cci < nameRow.length ∧ cci < headerRow.length ∧
        (headerRow.getD cci .absent).truthy then do
      let params ← readGroupParams rows map cci
      let (cols, cci2) ←
        readGroupColumns rows headerRow nameRow hri nCodes (headerRow.length + 1) [] cci
      verifyColumns params cols
      let rest ← readParameterSets rows headerRow nameRow map hri nCodes fuel cci2
      .ok (ParameterSet.mk params cols :: rest)
    else .ok []

/-- `HabitatNetworkAlgorithm._loadBatchParameters` (lines 294-385) from
the loaded grid onward (workbook opening and sheet loading are embedded
separately as `OpenWorkbook` / `Workbook.loadSheetData`). -/
def loadBatchParameters (rows : Grid) : Except String BatchParameters := do
  let hri ← locateHeaderRow rows
  let headerRow ← listGetOrIndexError rows hri
  let hci ← locateHeaderColumn rows hri
  let map ← buildHeaderToRowMap rows hri hci
  let codeCol ← listIndexPy headerRow (.str BIOTOPE_CODE_HDR)
  let biotopeCodes ← columnValues rows codeCol (hri + 1) (rows.length - hri - 1)
  validateRowHeaders map
  let nameRowIdx ← (match pyDictGet CellValue.pyEq map (.str NAME_PARAM) with
    | some i => .ok i
    | none => .error "KeyError: Network name")
  let nameRow ← listGetOrIndexError rows nameRowIdx
  let sets ← readParameterSets rows headerRow nameRow map hri biotopeCodes.length
    (headerRow.length + 1) (hci + 1)
  .ok (BatchParameters.mk biotopeCodes sets)

/-! ## Concrete inputs and spec-side definitions used by the theorems -/

/-- Name row of a two-group grid whose groups are directly adjacent
(columns 2-4 and 5-7; the name row shows "B" at column 5, the first
column of the second group). -/
def adjNameRow : Row :=
  [.absent, .str "Network name", .str "A", .absent, .absent, .str "B", .absent, .absent]

/-- Dispersal-distance row of the adjacent two-group grid. -/
def adjDispRow : Row :=
  [.absent, .str "Average dispersal distance (metres)", .int 500, .absent, .absent,
   .int 600, .absent, .absent]

/-- Network-threshold row of the adjacent two-group grid. -/
def adjThreshRow : Row :=
  [.absent, .str "Network threshold", .int 1, .absent, .absent, .int 2, .absent, .absent]

/-- Header row of the adjacent two-group grid. -/
def adjHeaderRow : Row :=
  [.absent, .str "BiotopeCode", .str "Quality", .str "Source", .str "Friction",
   .str "Quality", .str "Source", .str "Friction"]

/-- A data row of the adjacent two-group grid: biotope code, then
Quality/Source/Friction for each group. -/
def adjDataRow (code q s f q2 s2 f2 : Int) : Row :=
  [.absent, .int code, .int q, .int s, .int f, .int q2, .int s2, .int f2]

/-- A grid with two configuration groups directly adjacent (no spacer):
arbitrary integer biotope codes and data values. -/
def adjacentTwoGroupGrid (c1 c2 q1 q2 s1 s2 f1 f2 q3 q4 s3 s4 f3 f4 : Int) : Grid :=
  [adjNameRow, adjDispRow, adjThreshRow, adjHeaderRow,
   adjDataRow c1 q1 s1 f1 q3 s3 f3, adjDataRow c2 q2 s2 f2 q4 s4 f4]

/-- Name row of a two-group grid with one blank spacer column (column 5
entirely empty) between the groups at columns 2-4 and 6-8. -/
def spacNameRow : Row :=
  [.absent, .str "Network name", .str "A", .absent, .absent, .absent, .str "B",
   .absent, .absent]

/-- Dispersal-distance row of the spacer grid. -/
def spacDispRow : Row :=
  [.absent, .str "Average dispersal distance (metres)", .int 500, .absent, .absent,
   .absent, .int 600, .absent, .absent]

/-- Network-threshold row of the spacer grid. -/
def spacThreshRow : Row :=
  [.absent, .str "Network threshold", .int 1, .absent, .absent, .absent, .int 2,
   .absent, .absent]

/-- Header row of the spacer grid (empty header cell at the spacer). -/
def spacHeaderRow : Row :=
  [.absent, .str "BiotopeCode", .str "Quality", .str "Source", .str "Friction",
   .absent, .str "Quality", .str "Source", .str "Friction"]

/-- A data row of the spacer grid. -/
def spacDataRow (code q s f q2 s2 f2 : Int) : Row :=
  [.absent, .int code, .int q, .int s, .int f, .absent, .int q2, .int s2, .int f2]

/-- A grid with two configuration groups separated by one blank spacer
column (header-row cell and name-row cell both empty at column 5). -/
def spacerTwoGroupGrid (c1 c2 q1 q2 s1 s2 f1 f2 q3 q4 s3 s4 f3 f4 : Int) : Grid :=
  [spacNameRow, spacDispRow, spacThreshRow, spacHeaderRow,
   spacDataRow c1 q1 s1 f1 q3 s3 f3, spacDataRow c2 q2 s2 f2 q4 s4 f4]

/-- The header-to-row map both example grids produce (rows 0-2 labelled
at header column 1). -/
def headerParamMap : List (CellValue × Nat) :=
  [(.str "Network name", 0), (.str "Average dispersal distance (metres)", 1),
   (.str "Network threshold", 2)]

/-- Grid whose header row (containing the biotope-code literal) is the
row at index 1 and whose "name" label sits at column 1 of row 0. -/
def c2WitnessGrid : Grid :=
  [[.absent, .str "Network name"], [.str "BiotopeCode"]]

/-- A parsable workbook manifest declaring one sheet. -/
def wbManifestXml : Xml :=
  .node "workbook" [] none
    [.node "sheets" [] none
      [.node "sheet" [("name", "Sheet1"), ("id", "rId1")] none []]]

/-- A parsable relationship manifest resolving the sheet. -/
def relsManifestXml : Xml :=
  .node "Relationships" [] none
    [.node "Relationship" [("Id", "rId1"), ("Target", "worksheets/sheet1.xml")] none []]

/-- A package with parsable `xl/workbook.xml` and
`xl/_rels/workbook.xml.rels` but no `xl/sharedStrings.xml` entry. -/
def archNoShared : Archive :=
  [("xl/workbook.xml", .xmlDoc wbManifestXml),
   ("xl/_rels/workbook.xml.rels", .xmlDoc relsManifestXml)]

/-- Last-wins lookup over the raw `(declared number, row)` pairs: the
row of the last pair declaring `n`. -/
def lookupLast : List (Int × Row) → Int → Option Row
  | [], _ => none
  | p :: rest, n =>
    match lookupLast rest n with
    | some r => some r
    | none => if p.1 == n then some p.2 else none

/-- The grid the claim describes: `max declared number` rows, the row
declared `i + 1` placed at index `i`, skipped numbers yielding `[]`
(a row with no cell, every cell of it absent). -/
def specGrid (raw : List (Int × Row)) (m : Int) : Grid :=
  (List.range m.toNat).map
    (fun i : Nat => ((raw.find? (fun p => p.1 == (i : Int) + 1)).map Prod.snd).getD [])

/-- A worksheet with rows declared out of order (3 before 1) and row
number 2 skipped. -/
def c6Root : Xml :=
  .node "worksheet" [] none
    [.node "sheetData" [] none
      [.node "row" [("r", "3"), ("spans", "1:2")] none
        [.node "c" [("r", "A3")] none [.node "v" [] (some "7") []]],
       .node "row" [("r", "1"), ("spans", "1:1")] none
        [.node "c" [("r", "A1")] none [.node "v" [] (some "9") []]]]]

/-- A column span holding a numeric zero and a nonzero value. -/
def c7ZeroGrid : Grid := [[.int 0], [.int 5]]

/-- A column span whose second cell is an empty string (falsy, not a
numeric zero). -/
def c7BadGrid : Grid := [[.int 1], [.str ""]]

/-- A worksheet whose `sheetData` element declares zero row elements. -/
def c8Root : Xml := .node "worksheet" [] none [.node "sheetData" [] none []]

/-- A single-group grid on which extraction succeeds (used to witness
the structural invariant). -/
def c9Grid : Grid :=
  [[.absent, .str "Network name", .str "N", .absent, .absent],
   [.absent, .str "Average dispersal distance (metres)", .int 100, .absent, .absent],
   [.absent, .str "Network threshold", .int 1, .absent, .absent],
   [.absent, .str "BiotopeCode", .str "Quality", .str "Source", .str "Friction"],
   [.absent, .int 7, .int 1, .int 0, .int 2]]

/-- The structural invariant of the claim, as an executable check:
every `columns` entry of every parameter set has exactly as many values
as there are row-category codes. -/
def columnsLengthOk (bp : BatchParameters) : Bool :=
  bp.parameterSets.all (fun ps =>
    ps.columns.all (fun kv => kv.2.length == bp.biotopeCodes.length))

/-- The zero-based column an applied cell element writes to, when its
reference parses (`ord(ref[0]) - ord("A")`). -/
def colOfCell (c : Xml) : Option Int :=
  (c.attrGet "r").bind (fun ref => (ref.toList.head?).map (fun ch => ((ch.toNat : Int) - 65)))

/-- A cell element with a type marker but no `v` child. -/
def c10CellNoV : Xml := .node "c" [("r", "B1"), ("t", "s")] none []

/-- A cell element writing the integer 4 to column 0. -/
def c10CellA : Xml := .node "c" [("r", "A1")] none [.node "v" [] (some "4") []]

/-! ## Helper lemmas -/

/-- An integer cell never triggers the missing-cell rejection: a falsy
integer is exactly `0`, which the `0 != row[ci]` exception lets pass. -/
theorem int_cell_passes (q : Int) :
    (!(CellValue.truthy (.int q)) && !(CellValue.pyEq (.int 0) (.int q))) = false := by
  by_cases h : q = 0
  · simp [CellValue.truthy, CellValue.pyEq, h]
  · simp [CellValue.truthy, CellValue.pyEq, h, Ne.symm h]

/-! ## C1 -/

/-- C1 (amended): group partitioning supports directly adjacent
configuration groups — on the adjacent family the extraction returns
exactly two ParameterSets with their correct parameters and column
spans — but a blank spacer column terminates the scan: on the spacer
family only the first group's ParameterSet is returned. -/
theorem c1_group_partition_amended
    (c1 c2 q1 q2 s1 s2 f1 f2 q3 q4 s3 s4 f3 f4 : Int) :
    (loadBatchParameters (adjacentTwoGroupGrid c1 c2 q1 q2 s1 s2 f1 f2 q3 q4 s3 s4 f3 f4) =
      .ok (BatchParameters.mk [.int c1, .int c2]
        [ParameterSet.mk
          [(.str NAME_PARAM, .str "A"), (.str DISPERSAL_PARAM, .int 500),
           (.str "Network threshold", .int 1)]
          [(.str "Quality", [.int q1, .int q2]), (.str "Source", [.int s1, .int s2]),
           (.str "Friction", [.int f1, .int f2])],
         ParameterSet.mk
          [(.str NAME_PARAM, .str "B"), (.str DISPERSAL_PARAM, .int 600),
           (.str "Network threshold", .int 2)]
          [(.str "Quality", [.int q3, .int q4]), (.str "Source", [.int s3, .int s4]),
           (.str "Friction", [.int f3, .int f4])]])) ∧
    (loadBatchParameters (spacerTwoGroupGrid c1 c2 q1 q2 s1 s2 f1 f2 q3 q4 s3 s4 f3 f4) =
      .ok (BatchParameters.mk [.int c1, .int c2]
        [ParameterSet.mk
          [(.str NAME_PARAM, .str "A"), (.str DISPERSAL_PARAM, .int 500),
           (.str "Network threshold", .int 1)]
          [(.str "Quality", [.int q1, .int q2]), (.str "Source", [.int s1, .int s2]),
           (.str "Friction", [.int f1, .int f2])]])) := by
  constructor
  · set g : Grid := adjacentTwoGroupGrid c1 c2 q1 q2 s1 s2 f1 f2 q3 q4 s3 s4 f3 f4 with hg
    have hRow : locateHeaderRow g = .ok 3 := by
      simp [hg, adjacentTwoGroupGrid, adjNameRow, adjDispRow, adjThreshRow, adjHeaderRow,
        locateHeaderRow, findHeaderRowIndex, rowContainsCode, CellValue.pyEq,
        BIOTOPE_CODE_HDR, List.findIdx?]
    have hG3 : listGetOrIndexError g 3 = .ok adjHeaderRow := by
      simp [hg, listGetOrIndexError, adjacentTwoGroupGrid]
    have hCol : locateHeaderColumn g 3 = .ok 1 := by
      simp [hg, adjacentTwoGroupGrid, adjNameRow, locateHeaderColumn, scanHeaderColumn,
        optNatTruthy, CellValue.pyEq, NAME_PARAM, List.findIdx?]
    have hMap : buildHeaderToRowMap g 3 1 = .ok headerParamMap := by
      simp [hg, adjacentTwoGroupGrid, adjNameRow, adjDispRow, adjThreshRow,
        buildHeaderToRowMap, buildHeaderToRowMapAux, pyDictInsert, CellValue.pyEq,
        CellValue.truthy, headerParamMap]
    have hIdx : listIndexPy adjHeaderRow (.str BIOTOPE_CODE_HDR) = .ok 1 := by
      simp [listIndexPy, adjHeaderRow, CellValue.pyEq, BIOTOPE_CODE_HDR, List.findIdx?]
    have hLen : g.length = 6 := by simp [hg, adjacentTwoGroupGrid]
    have hCodes : columnValues g 1 4 2 = .ok [.int c1, .int c2] := by
      simp [hg, adjacentTwoGroupGrid, adjDataRow, columnValues, cellMissing,
        int_cell_passes, Bind.bind, Except.bind]
    have hValid : validateRowHeaders headerParamMap = .ok () := by rfl
    have hNameIdx : pyDictGet CellValue.pyEq headerParamMap (.str NAME_PARAM) = some 0 := by
      rfl
    have hG0 : listGetOrIndexError g 0 = .ok adjNameRow := by
      simp [hg, listGetOrIndexError, adjacentTwoGroupGrid]
    have hCV : ∀ ci : Nat, 2 ≤ ci → ci ≤ 7 →
        columnValues g ci 4 2 =
          .ok [(adjDataRow c1 q1 s1 f1 q3 s3 f3).getD ci .absent,
               (adjDataRow c2 q2 s2 f2 q4 s4 f4).getD ci .absent] := by
      intro ci h2 h7
      interval_cases ci <;>
        simp [hg, adjacentTwoGroupGrid, adjDataRow, columnValues, cellMissing,
          int_cell_passes, Bind.bind, Except.bind]
    have hPA : readGroupParams g headerParamMap 2 = .ok
        [(.str "Network name", .str "A"),
         (.str "Average dispersal distance (metres)", .int 500),
         (.str "Network threshold", .int 1)] := by rfl
    have hPB : readGroupParams g headerParamMap 5 = .ok
        [(.str "Network name", .str "B"),
         (.str "Average dispersal distance (metres)", .int 600),
         (.str "Network threshold", .int 2)] := by rfl
    have hGCA : readGroupColumns g adjHeaderRow adjNameRow 3 2 9 [] 2 = .ok
        ([(.str "Quality", [.int q1, .int q2]), (.str "Source", [.int s1, .int s2]),
          (.str "Friction", [.int f1, .int f2])], 5) := by
      simp [readGroupColumns, adjHeaderRow, adjNameRow, CellValue.truthy,
        hCV 2 (by decide) (by decide), hCV 3 (by decide) (by decide),
        hCV 4 (by decide) (by decide), adjDataRow,
        pyDictInsert, CellValue.pyEq, Bind.bind, Except.bind]
    have hGCB : readGroupColumns g adjHeaderRow adjNameRow 3 2 9 [] 5 = .ok
        ([(.str "Quality", [.int q3, .int q4]), (.str "Source", [.int s3, .int s4]),
          (.str "Friction", [.int f3, .int f4])], 8) := by
      simp [readGroupColumns, adjHeaderRow, adjNameRow, CellValue.truthy,
        hCV 5 (by decide) (by decide), hCV 6 (by decide) (by decide),
        hCV 7 (by decide) (by decide), adjDataRow,
        pyDictInsert, CellValue.pyEq, Bind.bind, Except.bind]
    have hV1 : ∀ ps : List (CellValue × CellValue),
        verifyColumns ps [(.str "Quality", [.int q1, .int q2]),
          (.str "Source", [.int s1, .int s2]),
          (.str "Friction", [.int f1, .int f2])] = .ok () := by
      intro ps
      simp [verifyColumns, COLUMNS, NameOrList.names, List.forM, pyDictGet,
        CellValue.pyEq, QUALITY_COLUMN, SOURCE_COLUMN, FRICTION_COLUMN,
        Bind.bind, Except.bind, Pure.pure, Except.pure]
    have hV2 : ∀ ps : List (CellValue × CellValue),
        verifyColumns ps [(.str "Quality", [.int q3, .int q4]),
          (.str "Source", [.int s3, .int s4]),
          (.str "Friction", [.int f3, .int f4])] = .ok () := by
      intro ps
      simp [verifyColumns, COLUMNS, NameOrList.names, List.forM, pyDictGet,
        CellValue.pyEq, QUALITY_COLUMN, SOURCE_COLUMN, FRICTION_COLUMN,
        Bind.bind, Except.bind, Pure.pure, Except.pure]
    have hHL : List.length adjHeaderRow = 8 := by simp [adjHeaderRow]
    have hS3 : readParameterSets g adjHeaderRow adjNameRow headerParamMap 3 2 7 8 =
        .ok [] := by rfl
    have hS2 : readParameterSets g adjHeaderRow adjNameRow headerParamMap 3 2 8 5 = .ok
        [ParameterSet.mk
          [(.str NAME_PARAM, .str "B"), (.str DISPERSAL_PARAM, .int 600),
           (.str "Network threshold", .int 2)]
          [(.str "Quality", [.int q3, .int q4]), (.str "Source", [.int s3, .int s4]),
           (.str "Friction", [.int f3, .int f4])]] := by
      rw [readParameterSets.eq_2]
      rw [if_pos (by decide)]
      simp only [hHL, Nat.reduceAdd, hPB, hGCB, hV2, hS3, Bind.bind, Except.bind,
        Pure.pure, Except.pure, NAME_PARAM, DISPERSAL_PARAM]
    have hS1 : readParameterSets g adjHeaderRow adjNameRow headerParamMap 3 2 9 2 = .ok
        [ParameterSet.mk
          [(.str NAME_PARAM, .str "A"), (.str DISPERSAL_PARAM, .int 500),
           (.str "Network threshold", .int 1)]
          [(.str "Quality", [.int q1, .int q2]), (.str "Source", [.int s1, .int s2]),
           (.str "Friction", [.int f1, .int f2])],
         ParameterSet.mk
          [(.str NAME_PARAM, .str "B"), (.str DISPERSAL_PARAM, .int 600),
           (.str "Network threshold", .int 2)]
          [(.str "Quality", [.int q3, .int q4]), (.str "Source", [.int s3, .int s4]),
           (.str "Friction", [.int f3, .int f4])]] := by
      rw [readParameterSets.eq_2]
      rw [if_pos (by decide)]
      simp only [hHL, Nat.reduceAdd, hPA, hGCA, hV1, hS2, Bind.bind, Except.bind,
        Pure.pure, Except.pure, NAME_PARAM, DISPERSAL_PARAM]
    simp only [loadBatchParameters, Bind.bind, Except.bind, hRow, hG3, hCol, hMap, hIdx,
      hLen, hCodes, hValid, hNameIdx, hG0, List.length_cons, List.length_nil]
    norm_num [hHL]
    rw [hS1]
  · set g : Grid := spacerTwoGroupGrid c1 c2 q1 q2 s1 s2 f1 f2 q3 q4 s3 s4 f3 f4 with hg
    have hRow : locateHeaderRow g = .ok 3 := by
      simp [hg, spacerTwoGroupGrid, spacNameRow, spacDispRow, spacThreshRow,
        spacHeaderRow, locateHeaderRow, findHeaderRowIndex, rowContainsCode,
        CellValue.pyEq, BIOTOPE_CODE_HDR, List.findIdx?]
    have hG3 : listGetOrIndexError g 3 = .ok spacHeaderRow := by
      simp [hg, listGetOrIndexError, spacerTwoGroupGrid]
    have hCol : locateHeaderColumn g 3 = .ok 1 := by
      simp [hg, spacerTwoGroupGrid, spacNameRow, locateHeaderColumn, scanHeaderColumn,
        optNatTruthy, CellValue.pyEq, NAME_PARAM, List.findIdx?]
    have hMap : buildHeaderToRowMap g 3 1 = .ok headerParamMap := by
      simp [hg, spacerTwoGroupGrid, spacNameRow, spacDispRow, spacThreshRow,
        buildHeaderToRowMap, buildHeaderToRowMapAux, pyDictInsert, CellValue.pyEq,
        CellValue.truthy, headerParamMap]
    have hIdx : listIndexPy spacHeaderRow (.str BIOTOPE_CODE_HDR) = .ok 1 := by
      simp [listIndexPy, spacHeaderRow, CellValue.pyEq, BIOTOPE_CODE_HDR, List.findIdx?]
    have hLen : g.length = 6 := by simp [hg, spacerTwoGroupGrid]
    have hCodes : columnValues g 1 4 2 = .ok [.int c1, .int c2] := by
      simp [hg, spacerTwoGroupGrid, spacDataRow, columnValues, cellMissing,
        int_cell_passes, Bind.bind, Except.bind]
    have hValid : validateRowHeaders headerParamMap = .ok () := by rfl
    have hNameIdx : pyDictGet CellValue.pyEq headerParamMap (.str NAME_PARAM) = some 0 := by
      rfl
    have hG0 : listGetOrIndexError g 0 = .ok spacNameRow := by
      simp [hg, listGetOrIndexError, spacerTwoGroupGrid]
    have hCV : ∀ ci : Nat, 2 ≤ ci → ci ≤ 4 →
        columnValues g ci 4 2 =
          .ok [(spacDataRow c1 q1 s1 f1 q3 s3 f3).getD ci .absent,
               (spacDataRow c2 q2 s2 f2 q4 s4 f4).getD ci .absent] := by
      intro ci h2 h7
      interval_cases ci <;>
        simp [hg, spacerTwoGroupGrid, spacDataRow, columnValues, cellMissing,
          int_cell_passes, Bind.bind, Except.bind]
    have hPA : readGroupParams g headerParamMap 2 = .ok
        [(.str "Network name", .str "A"),
         (.str "Average dispersal distance (metres)", .int 500),
         (.str "Network threshold", .int 1)] := by rfl
    have hGCA : readGroupColumns g spacHeaderRow spacNameRow 3 2 10 [] 2 = .ok
        ([(.str "Quality", [.int q1, .int q2]), (.str "Source", [.int s1, .int s2]),
          (.str "Friction", [.int f1, .int f2])], 5) := by
      simp [readGroupColumns, spacHeaderRow, spacNameRow, CellValue.truthy,
        hCV 2 (by decide) (by decide), hCV 3 (by decide) (by decide),
        hCV 4 (by decide) (by decide), spacDataRow,
        pyDictInsert, CellValue.pyEq, Bind.bind, Except.bind]
    have hV1 : ∀ ps : List (CellValue × CellValue),
        verifyColumns ps [(.str "Quality", [.int q1, .int q2]),
          (.str "Source", [.int s1, .int s2]),
          (.str "Friction", [.int f1, .int f2])] = .ok () := by
      intro ps
      simp [verifyColumns, COLUMNS, NameOrList.names, List.forM, pyDictGet,
        CellValue.pyEq, QUALITY_COLUMN, SOURCE_COLUMN, FRICTION_COLUMN,
        Bind.bind, Except.bind, Pure.pure, Except.pure]
    have hHL : List.length spacHeaderRow = 9 := by simp [spacHeaderRow]
    have hS2 : readParameterSets g spacHeaderRow spacNameRow headerParamMap 3 2 9 5 =
        .ok [] := by rfl
    have hS1 : readParameterSets g spacHeaderRow spacNameRow headerParamMap 3 2 10 2 = .ok
        [ParameterSet.mk
          [(.str NAME_PARAM, .str "A"), (.str DISPERSAL_PARAM, .int 500),
           (.str "Network threshold", .int 1)]
          [(.str "Quality", [.int q1, .int q2]), (.str "Source", [.int s1, .int s2]),
           (.str "Friction", [.int f1, .int f2])]] := by
      rw [readParameterSets.eq_2]
      rw [if_pos (by decide)]
      simp only [hHL, Nat.reduceAdd, hPA, hGCA, hV1, hS2, Bind.bind, Except.bind,
        Pure.pure, Except.pure, NAME_PARAM, DISPERSAL_PARAM]
    simp only [loadBatchParameters, Bind.bind, Except.bind, hRow, hG3, hCol, hMap, hIdx,
      hLen, hCodes, hValid, hNameIdx, hG0, List.length_cons, List.length_nil]
    norm_num [hHL]
    rw [hS1]

/-- C1 (counterexample): on a concrete two-group grid whose groups are
separated by one blank spacer column, extraction returns exactly one
ParameterSet, not the two the claim requires. -/
theorem c1_group_partition_counterexample :
    (loadBatchParameters (spacerTwoGroupGrid 101 102 1 2 1 0 5 7 2 1 0 1 3 4)).map
      (fun bp => bp.parameterSets.length) = .ok 1 := rfl

/-! ## C2 -/

/-- `findIdx?` returns the least index satisfying the predicate. -/
theorem findIdx?_of_first {α : Type _} (p : α → Bool) (d : α) :
    ∀ (l : List α) (i : Nat), i < l.length → p (l.getD i d) = true →
      (∀ k, k < i → p (l.getD k d) = false) → l.findIdx? p = some i := by
  intro l
  induction l with
  | nil => intro i hi _ _; simp at hi
  | cons a t ih =>
    intro i hi hp hk
    cases i with
    | zero =>
      simp only [List.getD_cons_zero] at hp
      rw [List.findIdx?_cons]
      simp [hp]
    | succ n =>
      have ha : p a = false := by
        have := hk 0 (Nat.succ_pos n)
        simpa using this
      have ht : t.findIdx? p = some n := by
        refine ih n (by simpa using hi) (by simpa using hp) ?_
        intro k hk2
        have := hk (k + 1) (by omega)
        simpa using this
      rw [List.findIdx?_cons]
      simp [ha, List.findIdx?_succ, ht]

/-- Rows without the name label leave the header-column scan state
untouched. -/
theorem scanHeaderColumn_append_no_match (l1 l2 : List Row)
    (h : ∀ r ∈ l1, r.findIdx? (fun cell => cell.pyEq (.str NAME_PARAM)) = none) :
    scanHeaderColumn (l1 ++ l2) none = scanHeaderColumn l2 none := by
  induction l1 with
  | nil => rfl
  | cons r t ih =>
    have hr : r.findIdx? (fun cell => cell.pyEq (.str NAME_PARAM)) = none :=
      h r (by simp)
    simp only [List.cons_append, scanHeaderColumn, hr, optNatTruthy]
    exact ih (fun r2 hr2 => h r2 (by simp [hr2]))

/-- A row whose first name-label match sits at a nonzero column stops
the header-column scan there. -/
theorem scanHeaderColumn_cons_hit (row : Row) (rest : List Row) (c : Nat)
    (h : row.findIdx? (fun cell => cell.pyEq (.str NAME_PARAM)) = some c) (hc : c ≠ 0) :
    scanHeaderColumn (row :: rest) none = some c := by
  simp [scanHeaderColumn, h, optNatTruthy, hc]

/-- C2 (amended): when the first grid row containing the biotope-code
literal sits at a nonzero index `i`, extraction does not raise the
missing-header-row error and uses `i` as the header row; and when the
first row above it containing the canonical name label has its first
match at a nonzero column `c`, extraction does not raise the
missing-header-column error and uses `c` as the header column. (At
index 0 either lookup is misreported as missing — see the
counterexample.) -/
theorem c2_header_location_amended (rows : Grid) (i : Nat)
    (hi : i < rows.length)
    (hc : rowContainsCode (rows.getD i []) = true)
    (hfirst : ∀ k, k < i → rowContainsCode (rows.getD k []) = false)
    (hnz : i ≠ 0) :
    locateHeaderRow rows = .ok i ∧
    (∀ (j c : Nat), j < i →
      (rows.getD j []).findIdx? (fun cell => cell.pyEq (.str NAME_PARAM)) = some c →
      (∀ k, k < j →
        (rows.getD k []).findIdx? (fun cell => cell.pyEq (.str NAME_PARAM)) = none) →
      c ≠ 0 →
      locateHeaderColumn rows i = .ok c) := by
  have hfind : findHeaderRowIndex rows = some i :=
    findIdx?_of_first _ _ rows i hi hc hfirst
  constructor
  · simp [locateHeaderRow, hfind, hnz]
  · intro j c hj hjc hnomatch hcnz
    have hjlen : j < rows.length := by omega
    have h1 : i = j + (i - j) := by omega
    have h2 : rows.drop j = rows.getD j [] :: rows.drop (j + 1) := by
      rw [List.getD_eq_getElem rows [] hjlen]
      exact List.drop_eq_getElem_cons hjlen
    obtain ⟨m, hm⟩ : ∃ m, i - j = m + 1 := ⟨i - j - 1, by omega⟩
    have hdecomp : rows.take i =
        rows.take j ++ (rows.getD j []) :: ((rows.drop (j + 1)).take m) := by
      conv_lhs => rw [h1, hm]
      rw [List.take_add, h2, List.take_succ_cons]
    have hside : ∀ r ∈ rows.take j,
        r.findIdx? (fun cell => cell.pyEq (.str NAME_PARAM)) = none := by
      intro r hr
      rw [List.mem_take_iff_getElem] at hr
      obtain ⟨k, hk, rfl⟩ := hr
      have hkj : k < j := lt_of_lt_of_le hk (min_le_left _ _)
      have hklen : k < rows.length := lt_of_lt_of_le hk (min_le_right _ _)
      have hres := hnomatch k hkj
      rwa [List.getD_eq_getElem rows [] hklen] at hres
    unfold locateHeaderColumn
    rw [hdecomp, scanHeaderColumn_append_no_match _ _ hside,
      scanHeaderColumn_cons_hit _ _ c hjc hcnz]
    simp [hcnz]

/-- C2 (counterexample): a grid whose very first row contains the
biotope-code literal — so the header row is at index 0 — is rejected
with the missing-header-row error, because `if not headerRowIndex:`
treats index 0 as "not found". -/
theorem c2_header_at_zero_counterexample :
    rowContainsCode [CellValue.str "BiotopeCode"] = true ∧
    findHeaderRowIndex [[CellValue.str "BiotopeCode"], [CellValue.int 1]] = some 0 ∧
    loadBatchParameters [[CellValue.str "BiotopeCode"], [CellValue.int 1]] =
      .error headerRowMissingMsg := ⟨rfl, rfl, rfl⟩

/-- C2 (witness): the amended theorem applied to a concrete grid with
the header row at index 1 and the name label at column 1 of row 0. -/
theorem c2_header_location_witness :
    locateHeaderRow c2WitnessGrid = .ok 1 ∧ locateHeaderColumn c2WitnessGrid 1 = .ok 1 := by
  have h := c2_header_location_amended c2WitnessGrid 1 (by decide) (by decide)
    (fun k hk => by interval_cases k; decide) (by decide)
  exact ⟨h.1, h.2 0 1 (by decide) (by decide)
    (fun k hk => absurd hk (Nat.not_lt_zero k)) (by decide)⟩

/-! ## C3 -/

/-- C3 (code divergence): when no synonym matches, `ParameterSet.parameter`
and `ParameterSet.column` report the first *character* of the *last*
synonym tried (`name[0]` on the loop variable) and never list the
synonyms — e.g. `Missing parameter 'M'.` for the network-threshold
concept — whereas the row-header validation pass in
`_loadBatchParameters` produces the message the claim describes, naming
the synonyms. -/
theorem c3_error_message_divergence :
    (ParameterSet.mk [] []).parameter (.list NETWORK_THRESHOLD_PARAM) =
      .error ("Missing parameter " ++ apos ++ "M" ++ apos ++ ".") ∧
    (ParameterSet.mk [] []).column (.single QUALITY_COLUMN) =
      .error ("Missing parameter set column " ++ apos ++ "Q" ++ apos ++ ".") ∧
    validateRowHeaders [(.str NAME_PARAM, 0), (.str DISPERSAL_PARAM, 1)] =
      .error ("None of the following row headers were found: \"Network threshold\", \"Minimum dispersal probability\"") :=
  ⟨rfl, rfl, rfl⟩

/-! ## C4 -/

/-- C4 (counterexample): a package whose `workbook.xml` and
`_rels/workbook.xml.rels` are present and parsable but which has no
`xl/sharedStrings.xml` entry makes `open` fail with a `KeyError`
instead of yielding a reader with zero shared strings. -/
theorem c4_missing_shared_strings_counterexample :
    loadRels archNoShared = .ok [(some "rId1", some "worksheets/sheet1.xml")] ∧
    loadSheetDefs archNoShared = .ok [SheetDef.mk (some "Sheet1") (some "rId1")] ∧
    archNoShared.find? (fun p => p.1 == "xl/sharedStrings.xml") = none ∧
    OpenWorkbook archNoShared =
      .error "KeyError: no item named xl/sharedStrings.xml in the archive" :=
  ⟨rfl, rfl, rfl, rfl⟩

/-- C4 (amended): `open` loads `xl/sharedStrings.xml` unconditionally:
with the two required manifests loadable, `open` fails whenever the
shared-strings part is absent, and succeeds exactly when it also
loads. -/
theorem c4_open_requires_shared_strings (a : Archive)
    (rels : List (Option String × Option String)) (defs : List SheetDef)
    (h1 : loadRels a = .ok rels) (h2 : loadSheetDefs a = .ok defs) :
    (a.find? (fun p => p.1 == "xl/sharedStrings.xml") = none →
      OpenWorkbook a = .error "KeyError: no item named xl/sharedStrings.xml in the archive") ∧
    (∀ strs, loadSharedStrings a = .ok strs →
      OpenWorkbook a = .ok (Workbook.mk a rels defs strs)) := by
  constructor
  · intro hmiss
    simp [OpenWorkbook, h1, h2, loadSharedStrings, loadXml, hmiss, Bind.bind, Except.bind]
  · intro strs h3
    simp [OpenWorkbook, h1, h2, h3, Bind.bind, Except.bind, Pure.pure, Except.pure]

/-- C4 (witness): the amended theorem applied to the concrete package
without a shared-strings part. -/
theorem c4_open_requires_shared_strings_witness :
    OpenWorkbook archNoShared =
      .error "KeyError: no item named xl/sharedStrings.xml in the archive" :=
  (c4_open_requires_shared_strings archNoShared
    [(some "rId1", some "worksheets/sheet1.xml")]
    [SheetDef.mk (some "Sheet1") (some "rId1")] rfl rfl).1 rfl

/-! ## C5 -/

/-- C5: the coercion of a raw (non-shared-string) cell text tries
integer, then decimal, then falls back to the original string — in that
fixed order, first success winning. -/
theorem c5_value_coercion_order (s : String) :
    (∀ n : Int, pyParseInt s = some n → ValueFromString s = .int n) ∧
    (pyParseInt s = none → ∀ p : Int × Int, pyParseFloat s = some p →
      ValueFromString s = .float p.1 p.2) ∧
    (pyParseInt s = none → pyParseFloat s = none → ValueFromString s = .str s) := by
  refine ⟨?_, ?_, ?_⟩
  · intro n h; simp [ValueFromString, h]
  · intro h p h2; simp [ValueFromString, h, h2]
  · intro h h2; simp [ValueFromString, h, h2]

/-- C5 (witness): `"42"` coerces to the integer 42, `"3.5"` to the
float with decimal components `35 * 10 ^ (-1)` — that is, 7/2 — and
`"abc"` stays a string. -/
theorem c5_value_coercion_order_witness :
    ValueFromString "42" = .int 42 ∧ ValueFromString "3.5" = .float 35 (-1) ∧
    ValueFromString "abc" = .str "abc" ∧ floatVal 35 (-1) = 7 / 2 := by
  refine ⟨(c5_value_coercion_order "42").1 42 (by rfl),
    (c5_value_coercion_order "3.5").2.1 (by rfl) (35, -1) (by rfl),
    (c5_value_coercion_order "abc").2.2 (by rfl) (by rfl), ?_⟩
  norm_num [floatVal]

/-! ## C7 -/

/-- C7: reading a vertical span validates every cell: when no cell in
the span triggers the missing-cell condition the raw values are
returned unchanged (zeros preserved), otherwise the error names the
first offending cell as column letter plus 1-based row; moreover an
integer cell (including 0) never triggers the condition, while an
absent cell always does. -/
theorem c7_column_span_validation (rows : Grid) (ci : Nat) :
    (∀ count first, first + count ≤ rows.length →
      ((∀ i, i < count → cellMissing (rows.getD (first + i) []) ci = false) →
        columnValues rows ci first count =
          .ok ((List.range count).map
            (fun i => (rows.getD (first + i) []).getD ci .absent))) ∧
      (∀ j, j < count →
        (∀ i, i < j → cellMissing (rows.getD (first + i) []) ci = false) →
        cellMissing (rows.getD (first + j) []) ci = true →
        columnValues rows ci first count =
          .error ("Value expected in cell " ++ CellRef ci (first + j)))) ∧
    (∀ (row : Row) (j : Nat) (q : Int), row.getD j .absent = .int q →
      cellMissing row j = false) ∧
    (∀ (row : Row) (j : Nat), row.getD j .absent = .absent → cellMissing row j = true) := by
  refine ⟨?_, ?_, ?_⟩
  · intro count
    induction count with
    | zero =>
      intro first _
      exact ⟨fun _ => by simp [columnValues], fun j hj => absurd hj (Nat.not_lt_zero j)⟩
    | succ n ih =>
      intro first hspan
      have hfl : first < rows.length := by omega
      have hrow : rows[first]? = some (rows.getD first []) := by
        rw [List.getElem?_eq_getElem hfl, List.getD_eq_getElem rows [] hfl]
      constructor
      · intro hall
        have hfalse : cellMissing (rows.getD first []) ci = false := by
          have := hall 0 (Nat.succ_pos n)
          simpa using this
        have hrest := (ih (first + 1) (by omega)).1 (fun i hi => by
          have := hall (i + 1) (by omega)
          rwa [show first + (i + 1) = first + 1 + i by omega] at this)
        simp only [columnValues, listGetOrIndexError, List.get?_eq_getElem?, hrow,
          hfalse, Bind.bind, Except.bind, hrest, Bool.false_eq_true, if_false]
        simp [List.range_succ_eq_map, List.map_map, Function.comp,
          Nat.add_assoc, Nat.add_comm, Nat.add_left_comm]
      · intro j hj hpre hbad
        cases j with
        | zero =>
          rw [Nat.add_zero] at hbad
          simp only [columnValues, listGetOrIndexError, List.get?_eq_getElem?, hrow,
            hbad, Bind.bind, Except.bind, eq_self_iff_true, if_true, Nat.add_zero]
        | succ k =>
          have hfalse : cellMissing (rows.getD first []) ci = false := by
            have := hpre 0 (Nat.succ_pos k)
            simpa using this
          have hrest := (ih (first + 1) (by omega)).2 k (by omega)
            (fun i hi => by
              have := hpre (i + 1) (by omega)
              rwa [show first + (i + 1) = first + 1 + i by omega] at this)
            (by rwa [show first + 1 + k = first + (k + 1) by omega])
          simp only [columnValues, listGetOrIndexError, List.get?_eq_getElem?, hrow,
            hfalse, Bind.bind, Except.bind, hrest, Bool.false_eq_true, if_false]
          rw [show first + 1 + k = first + (k + 1) by omega]
  · intro row j q hq
    have hjl : j < row.length := by
      by_contra hge
      rw [List.getD_eq_default _ _ (by omega)] at hq
      exact CellValue.noConfusion hq
    have hq2 : (row[j]?).getD CellValue.absent = CellValue.int q := by
      rwa [List.getD_eq_getElem?_getD] at hq
    by_cases hz : q = 0
    · simp [cellMissing, List.getD_eq_getElem?_getD, hq2, Nat.not_le.mpr hjl,
        CellValue.truthy, CellValue.pyEq, hz]
    · simp [cellMissing, List.getD_eq_getElem?_getD, hq2, Nat.not_le.mpr hjl,
        CellValue.truthy, CellValue.pyEq, hz, Ne.symm hz]
  · intro row j hq
    have hq2 : (row[j]?).getD CellValue.absent = CellValue.absent := by
      rwa [List.getD_eq_getElem?_getD] at hq
    by_cases hjl : j < row.length
    · simp [cellMissing, List.getD_eq_getElem?_getD, hq2, CellValue.truthy,
        CellValue.pyEq]
    · simp [cellMissing, Nat.le_of_not_lt hjl]

/-- C7 (witness): a span holding the numeric zero is read back intact,
and a span with an empty-string cell at zero-based row 1 fails naming
cell `A2`. -/
theorem c7_column_span_validation_witness :
    columnValues c7ZeroGrid 0 0 2 = .ok [.int 0, .int 5] ∧
    columnValues c7BadGrid 0 0 2 = .error "Value expected in cell A2" := by
  constructor
  · exact ((c7_column_span_validation c7ZeroGrid 0).1 2 0 (by decide)).1
      (fun i hi => by interval_cases i <;> decide)
  · exact ((c7_column_span_validation c7BadGrid 0).1 2 0 (by decide)).2 1 (by decide)
      (fun i hi => by interval_cases i <;> decide) (by decide)

/-! ## C8 -/

/-- C8: a worksheet whose `sheetData` element declares zero `row`
elements makes `loadSheetData` fail — `max` over the empty list of
declared row numbers raises. -/
theorem c8_empty_sheet_error (shared : List (Option String)) (root sheetData : Xml)
    (hfind : root.children.find? (fun c => c.tag == "sheetData") = some sheetData)
    (hrows : sheetData.children.filter (fun c => c.tag == "row") = []) :
    loadSheetDataXml shared root = .error "ValueError: max() arg is an empty sequence" := by
  simp [loadSheetDataXml, hfind, readRawRows, hrows, assembleGrid, pyMax,
    Bind.bind, Except.bind, List.mapM, List.mapM.loop, Pure.pure, Except.pure]

/-- C8 (witness): the theorem applied to a concrete empty worksheet. -/
theorem c8_empty_sheet_error_witness :
    loadSheetDataXml [] c8Root = .error "ValueError: max() arg is an empty sequence" :=
  c8_empty_sheet_error [] c8Root (Xml.node "sheetData" [] none []) rfl rfl

/-! ## C9 -/

/-- A successful `columnValues` call returns exactly `row_count`
values. -/
theorem columnValues_length (rows : Grid) (ci : Nat) :
    ∀ (count first : Nat) (vs : List CellValue),
      columnValues rows ci first count = .ok vs → vs.length = count := by
  intro count
  induction count with
  | zero =>
    intro first vs h
    simp only [columnValues] at h
    cases h
    rfl
  | succ n ih =>
    intro first vs h
    simp only [columnValues, Bind.bind, Except.bind] at h
    split at h
    · exact Except.noConfusion h
    · split at h
      · exact Except.noConfusion h
      · split at h
        · exact Except.noConfusion h
        · rename_i rest hrest
          cases h
          simp [ih (first + 1) rest hrest]

/-- `pyDictInsert` preserves a property of all stored values. -/
theorem pyDictInsert_val_prop {κ ν : Type _} (eq : κ → κ → Bool) (P : ν → Prop) :
    ∀ (d : List (κ × ν)) (k : κ) (v : ν), (∀ kv ∈ d, P kv.2) → P v →
      ∀ kv ∈ pyDictInsert eq d k v, P kv.2 := by
  intro d
  induction d with
  | nil =>
    intro k v _ hv kv hkv
    simp only [pyDictInsert, List.mem_singleton] at hkv
    subst hkv
    exact hv
  | cons p rest ih =>
    intro k v hall hv kv hkv
    simp only [pyDictInsert] at hkv
    split at hkv
    · rcases List.mem_cons.mp hkv with h1 | h1
      · subst h1; exact hv
      · exact hall kv (List.mem_cons_of_mem _ h1)
    · rcases List.mem_cons.mp hkv with h1 | h1
      · subst h1; exact hall p (List.mem_cons_self _ _)
      · exact ih k v (fun kv2 hkv2 => hall kv2 (List.mem_cons_of_mem _ hkv2)) hv kv h1

/-- Every column captured by the inner group loop has `nCodes`
values (the loop always calls `columnValues` with `len(biotopeCodes)`
as the count). -/
theorem readGroupColumns_columns_length (rows : Grid) (hdr nr : Row) (hri n : Nat) :
    ∀ (fuel : Nat) (cols : List (CellValue × List CellValue)) (cci : Nat)
      (cols2 : List (CellValue × List CellValue)) (cci2 : Nat),
      (∀ kv ∈ cols, kv.2.length = n) →
      readGroupColumns rows hdr nr hri n fuel cols cci = .ok (cols2, cci2) →
      ∀ kv ∈ cols2, kv.2.length = n := by
  intro fuel
  induction fuel with
  | zero =>
    intro cols cci cols2 cci2 _ h
    exact Except.noConfusion h
  | succ f ih =>
    intro cols cci cols2 cci2 hinv h
    simp only [readGroupColumns, Bind.bind, Except.bind] at h
    split at h
    · split at h
      · exact Except.noConfusion h
      · rename_i vs hvs
        split at h
        · cases h
          exact pyDictInsert_val_prop CellValue.pyEq (fun l => l.length = n) cols _ vs
            hinv (columnValues_length rows cci n (hri + 1) vs hvs)
        · exact ih _ _ _ _
            (pyDictInsert_val_prop CellValue.pyEq (fun l => l.length = n) cols _ vs
              hinv (columnValues_length rows cci n (hri + 1) vs hvs)) h
    · cases h
      exact hinv

/-- Every parameter set assembled by the outer loop satisfies the
columns-length invariant. -/
theorem readParameterSets_columns_length (rows : Grid) (hdr nr : Row)
    (map : List (CellValue × Nat)) (hri n : Nat) :
    ∀ (fuel cci : Nat) (sets : List ParameterSet),
      readParameterSets rows hdr nr map hri n fuel cci = .ok sets →
      ∀ ps ∈ sets, ∀ kv ∈ ps.columns, kv.2.length = n := by
  intro fuel
  induction fuel with
  | zero =>
    intro cci sets h
    exact Except.noConfusion h
  | succ f ih =>
    intro cci sets h
    simp only [readParameterSets, Bind.bind, Except.bind] at h
    split at h
    · split at h
      · exact Except.noConfusion h
      · split at h
        · exact Except.noConfusion h
        · rename_i pr hpr
          split at h
          · exact Except.noConfusion h
          · split at h
            · exact Except.noConfusion h
            · rename_i rest hrest
              cases h
              intro ps hps
              rcases List.mem_cons.mp hps with h1 | h1
              · subst h1
                exact readGroupColumns_columns_length rows hdr nr hri n _ [] _ _ _
                  (fun kv hkv => absurd hkv (List.not_mem_nil kv)) hpr
              · exact ih _ rest hrest ps h1
    · cases h
      intro ps hps
      exact absurd hps (List.not_mem_nil ps)

/-- C9: in every successfully extracted `BatchParameters`, every
entry of every ParameterSet's columns mapping has exactly as many
values as there are row-category codes. -/
theorem c9_columns_length_invariant (rows : Grid) (bp : BatchParameters)
    (h : loadBatchParameters rows = .ok bp) : columnsLengthOk bp = true := by
  simp only [loadBatchParameters, Bind.bind, Except.bind] at h
  cases h1 : locateHeaderRow rows with
  | error e => simp [h1] at h
  | ok hri =>
  simp only [h1] at h
  cases h2 : listGetOrIndexError rows hri with
  | error e => simp [h2] at h
  | ok headerRow =>
  simp only [h2] at h
  cases h3 : locateHeaderColumn rows hri with
  | error e => simp [h3] at h
  | ok hci =>
  simp only [h3] at h
  cases h4 : buildHeaderToRowMap rows hri hci with
  | error e => simp [h4] at h
  | ok map =>
  simp only [h4] at h
  cases h5 : listIndexPy headerRow (.str BIOTOPE_CODE_HDR) with
  | error e => simp [h5] at h
  | ok codeCol =>
  simp only [h5] at h
  cases h6 : columnValues rows codeCol (hri + 1) (rows.length - hri - 1) with
  | error e => simp [h6] at h
  | ok codes =>
  simp only [h6] at h
  cases h7 : validateRowHeaders map with
  | error e => simp [h7] at h
  | ok u =>
  simp only [h7] at h
  cases h8 : pyDictGet CellValue.pyEq map (.str NAME_PARAM) with
  | none => simp [h8] at h
  | some nameRowIdx =>
  simp only [h8] at h
  cases h9 : listGetOrIndexError rows nameRowIdx with
  | error e => simp [h9] at h
  | ok nameRow =>
  simp only [h9] at h
  cases h10 : readParameterSets rows headerRow nameRow map hri codes.length
      (headerRow.length + 1) (hci + 1) with
  | error e => simp [h10] at h
  | ok sets =>
  simp only [h10] at h
  cases h
  have hinv := readParameterSets_columns_length rows headerRow nameRow map hri
    codes.length _ _ sets h10
  simp only [columnsLengthOk, List.all_eq_true]
  intro ps hps
  intro kv hkv
  rw [beq_iff_eq]
  exact hinv ps hps kv hkv

/-- C9 (witness): the invariant theorem applied to a concrete
successful extraction. -/
theorem c9_columns_length_invariant_witness :
    columnsLengthOk (BatchParameters.mk [CellValue.int 7]
      [ParameterSet.mk
        [(.str "Network name", .str "N"),
         (.str "Average dispersal distance (metres)", .int 100),
         (.str "Network threshold", .int 1)]
        [(.str "Quality", [.int 1]), (.str "Source", [.int 0]),
         (.str "Friction", [.int 2])]]) = true :=
  c9_columns_length_invariant c9Grid
    (BatchParameters.mk [CellValue.int 7]
      [ParameterSet.mk
        [(.str "Network name", .str "N"),
         (.str "Average dispersal distance (metres)", .int 100),
         (.str "Network threshold", .int 1)]
        [(.str "Quality", [.int 1]), (.str "Source", [.int 0]),
         (.str "Friction", [.int 2])]]) rfl

/-! ## C6 -/

/-- A nonnegative in-range Python list assignment succeeds and is
`List.set`. -/
theorem listSetPy_ok (l : List α) (i : Int) (a : α) (h0 : 0 ≤ i)
    (h1 : i < (l.length : Int)) : listSetPy l i a = .ok (l.set i.toNat a) := by
  simp only [listSetPy]
  rw [if_neg (show ¬ i < 0 by omega),
    if_pos (show 0 ≤ i ∧ i < (l.length : Int) from ⟨h0, h1⟩)]

/-- Setting one index leaves the others unchanged. -/
theorem getD_set_ne (l : List α) (k j : Nat) (a d : α) (h : k ≠ j) :
    (l.set k a).getD j d = l.getD j d := by
  simp [List.getD_eq_getElem?_getD, List.getElem?_set_ne h]

/-- Setting an in-range index stores the value. -/
theorem getD_set_eq (l : List α) (k : Nat) (a d : α) (h : k < l.length) :
    (l.set k a).getD k d = a := by
  simp [List.getD_eq_getElem?_getD, List.getElem?_set_self h]

/-- The assembly fold of lines 76-77: with every declared number in
range, the fold succeeds and each grid slot holds the last row declared
for it (or the initial slot value). -/
theorem assemble_fold :
    ∀ (raw : List (Int × Row)) (g0 : Grid),
      (∀ p ∈ raw, 1 ≤ p.1 ∧ p.1 ≤ (g0.length : Int)) →
      ∃ gf, raw.foldlM (fun rows p => listSetPy rows (p.1 - 1) p.2) g0 = .ok gf ∧
        gf.length = g0.length ∧
        ∀ i : Nat, gf.getD i [] = ((lookupLast raw ((i : Int) + 1)).getD (g0.getD i [])) := by
  intro raw
  induction raw with
  | nil =>
    intro g0 _
    exact ⟨g0, rfl, rfl, fun i => by simp [lookupLast]⟩
  | cons p rest ih =>
    intro g0 hb
    have hp := hb p (List.mem_cons_self _ _)
    have hset : listSetPy g0 (p.1 - 1) p.2 = .ok (g0.set (p.1 - 1).toNat p.2) :=
      listSetPy_ok g0 (p.1 - 1) p.2 (by omega) (by omega)
    obtain ⟨gf, hfold, hlen, hget⟩ := ih (g0.set (p.1 - 1).toNat p.2)
      (fun q hq => by
        have := hb q (List.mem_cons_of_mem _ hq)
        simpa [List.length_set] using this)
    refine ⟨gf, ?_, by simpa [List.length_set] using hlen, ?_⟩
    · simp only [List.foldlM_cons, hset, Bind.bind, Except.bind, hfold]
    · intro i
      rw [hget i]
      cases hl : lookupLast rest ((i : Int) + 1) with
      | some r => simp [lookupLast, hl]
      | none =>
        simp only [lookupLast, hl]
        by_cases hpi : p.1 = (i : Int) + 1
        · have hidx : (p.1 - 1).toNat = i := by omega
          have hilen : i < g0.length := by omega
          rw [hidx, getD_set_eq g0 i p.2 [] hilen]
          simp [hpi]
        · have hidx : (p.1 - 1).toNat ≠ i := by omega
          rw [getD_set_ne g0 _ i p.2 [] hidx]
          simp only [Option.getD_none]
          rw [if_neg (by simpa using hpi)]
          simp

/-- No declaration, no row. -/
theorem lookupLast_eq_none_of_not_mem :
    ∀ (raw : List (Int × Row)) (n : Int), n ∉ raw.map Prod.fst →
      lookupLast raw n = none := by
  intro raw
  induction raw with
  | nil => intro n _; rfl
  | cons p rest ih =>
    intro n hn
    simp only [List.map_cons, List.mem_cons] at hn
    push_neg at hn
    simp only [lookupLast, ih n hn.2]
    rw [if_neg (by simpa using Ne.symm hn.1)]

/-- With pairwise distinct declared numbers, last-wins lookup is plain
first-match lookup. -/
theorem lookupLast_eq_find? :
    ∀ (raw : List (Int × Row)), (raw.map Prod.fst).Nodup →
      ∀ n : Int, lookupLast raw n = (raw.find? (fun p => p.1 == n)).map Prod.snd := by
  intro raw
  induction raw with
  | nil => intro _ n; rfl
  | cons p rest ih =>
    intro hnd n
    rw [List.map_cons, List.nodup_cons] at hnd
    by_cases hn : p.1 = n
    · have hnone : lookupLast rest n = none :=
        lookupLast_eq_none_of_not_mem rest n (hn ▸ hnd.1)
      simp [lookupLast, hnone, List.find?_cons, hn]
    · have hb : (p.1 == n) = false := beq_eq_false_iff_ne.mpr hn
      simp only [lookupLast, List.find?_cons, hb, ih hnd.2 n]
      cases hf : rest.find? (fun q => q.1 == n) with
      | none => simp [hf]
      | some q => simp [hf]

/-- `foldl max` bounds the seed and every element. -/
theorem le_foldl_max (xs : List Int) :
    ∀ a : Int, a ≤ xs.foldl max a ∧ ∀ x ∈ xs, x ≤ xs.foldl max a := by
  induction xs with
  | nil => intro a; simp
  | cons b t ih =>
    intro a
    have h1 := ih (max a b)
    constructor
    · calc a ≤ max a b := le_max_left a b
        _ ≤ _ := h1.1
    · intro x hx
      rcases List.mem_cons.mp hx with h | h
      · subst h
        calc x ≤ max a x := le_max_right a x
          _ ≤ _ := h1.1
      · exact h1.2 x h

/-- `max` dominates every element of the list. -/
theorem pyMax_ge (l : List Int) (m : Int) (h : pyMax l = .ok m) :
    ∀ x ∈ l, x ≤ m := by
  cases l with
  | nil => exact absurd h (by simp [pyMax])
  | cons a t =>
    simp only [pyMax] at h
    cases h
    intro x hx
    rcases List.mem_cons.mp hx with h | h
    · subst h; exact (le_foldl_max t x).1
    · exact (le_foldl_max t a).2 x h

/-- With distinct keys, `find?` retrieves exactly the member's pair. -/
theorem find?_of_mem_nodup :
    ∀ (raw : List (Int × Row)), (raw.map Prod.fst).Nodup →
      ∀ p ∈ raw, raw.find? (fun q => q.1 == p.1) = some p := by
  intro raw
  induction raw with
  | nil => intro _ p hp; exact absurd hp (List.not_mem_nil p)
  | cons a rest ih =>
    intro hnd p hp
    rw [List.map_cons, List.nodup_cons] at hnd
    rcases List.mem_cons.mp hp with h | h
    · subst h
      simp [List.find?_cons]
    · have hne : a.1 ≠ p.1 := by
        intro he
        exact hnd.1 (he ▸ List.mem_map_of_mem Prod.fst h)
      have hb : (a.1 == p.1) = false := beq_eq_false_iff_ne.mpr hne
      rw [List.find?_cons]
      simp only [hb]
      exact ih hnd.2 p h

/-- The claimed grid has exactly `max declared number` rows. -/
theorem specGrid_length (raw : List (Int × Row)) (m : Int) :
    (specGrid raw m).length = m.toNat := by
  simp only [specGrid, List.length_map, List.length_range]

/-- Row `i` of the claimed grid is the row declared `i + 1`, if any. -/
theorem specGrid_getD (raw : List (Int × Row)) (m : Int) (i : Nat) (h : i < m.toNat) :
    (specGrid raw m).getD i [] =
      ((raw.find? (fun p => p.1 == (i : Int) + 1)).map Prod.snd).getD [] := by
  simp only [specGrid, List.getD_eq_getElem?_getD, List.getElem?_map]
  simp [List.getElem?_range, h]

/-- C6: for a worksheet whose row elements declare (pairwise distinct)
1-based row numbers, `loadSheetData` returns a grid of exactly the
maximum declared row number of rows, with each declared row at index
`declaredNumber - 1` regardless of declaration order, and every skipped
row number yielding a row all of whose cells are absent. -/
theorem c6_row_placement (shared : List (Option String)) (root sheetData : Xml)
    (raw : List (Int × Row)) (m : Int)
    (hfind : root.children.find? (fun c => c.tag == "sheetData") = some sheetData)
    (hraw : readRawRows shared sheetData = .ok raw)
    (h1 : ∀ p ∈ raw, 1 ≤ p.1)
    (hnd : (raw.map Prod.fst).Nodup)
    (hm : pyMax (raw.map Prod.fst) = .ok m) :
    loadSheetDataXml shared root = .ok (specGrid raw m) ∧
    (specGrid raw m).length = m.toNat ∧
    (∀ p ∈ raw, (specGrid raw m).getD ((p.1 - 1).toNat) [] = p.2) ∧
    (∀ i : Nat, i < m.toNat → ((i : Int) + 1) ∉ raw.map Prod.fst →
      ∀ j : Nat, ((specGrid raw m).getD i []).getD j .absent = .absent) := by
  have hle : ∀ p ∈ raw, p.1 ≤ m := fun p hp =>
    pyMax_ge _ m hm p.1 (List.mem_map_of_mem _ hp)
  have hbound : ∀ p ∈ raw,
      1 ≤ p.1 ∧ p.1 ≤ ((List.replicate m.toNat ([] : Row)).length : Int) := by
    intro p hp
    have ha := h1 p hp
    have hb := hle p hp
    refine ⟨ha, ?_⟩
    rw [List.length_replicate]
    omega
  obtain ⟨gf, hfold, hlen, hget⟩ := assemble_fold raw (List.replicate m.toNat []) hbound
  have hreplen : (List.replicate m.toNat ([] : Row)).length = m.toNat :=
    List.length_replicate _ _
  have hrepgetD : ∀ i : Nat, (List.replicate m.toNat ([] : Row)).getD i [] = [] := by
    intro i
    by_cases h : i < m.toNat
    · simp [List.getD_eq_getElem?_getD, List.getElem?_replicate, h]
    · exact List.getD_eq_default _ _ (by rw [hreplen]; omega)
  have hgf : ∀ i : Nat, gf.getD i [] =
      ((raw.find? (fun p => p.1 == (i : Int) + 1)).map Prod.snd).getD [] := by
    intro i
    rw [hget i, hrepgetD i, lookupLast_eq_find? raw hnd]
  have hgfspec : gf = specGrid raw m := by
    apply List.ext_getElem (by rw [hlen, hreplen, specGrid_length])
    intro i hgi hsi
    have h1i : i < m.toNat := by rwa [specGrid_length] at hsi
    calc gf[i] = gf.getD i [] := (List.getD_eq_getElem gf [] hgi).symm
      _ = (specGrid raw m).getD i [] := by rw [hgf i, ← specGrid_getD raw m i h1i]
      _ = (specGrid raw m)[i] := List.getD_eq_getElem _ [] hsi
  refine ⟨?_, specGrid_length raw m, ?_, ?_⟩
  · simp only [loadSheetDataXml, hfind, hraw, Bind.bind, Except.bind, assembleGrid,
      hm, hfold, hgfspec]
  · intro p hp
    have hip : (((p.1 - 1).toNat : Int) + 1) = p.1 := by
      have := h1 p hp
      omega
    have hilt : (p.1 - 1).toNat < m.toNat := by
      have := h1 p hp
      have := hle p hp
      omega
    rw [specGrid_getD raw m _ hilt, show (((p.1 - 1).toNat : Int) + 1) = p.1 from hip,
      find?_of_mem_nodup raw hnd p hp]
    rfl
  · intro i hi hnot j
    rw [specGrid_getD raw m i hi]
    have hnone : raw.find? (fun p => p.1 == (i : Int) + 1) = none := by
      rw [List.find?_eq_none]
      intro p hp
      simp only [beq_iff_eq]
      intro he
      exact hnot (he ▸ List.mem_map_of_mem Prod.fst hp)
    simp [hnone]

/-- C6 (witness): rows declared out of order (3 before 1) with row 2
skipped land at indices 2 and 0, with `[]` (an all-absent row) at
index 1. -/
theorem c6_row_placement_witness :
    loadSheetDataXml [] c6Root =
      .ok [[CellValue.int 9], [], [CellValue.int 7, CellValue.absent]] ∧
    specGrid [((3 : Int), [CellValue.int 7, CellValue.absent]),
      ((1 : Int), [CellValue.int 9])] 3 =
      [[CellValue.int 9], [], [CellValue.int 7, CellValue.absent]] := by
  have h := c6_row_placement [] c6Root
    (Xml.node "sheetData" [] none
      [Xml.node "row" [("r", "3"), ("spans", "1:2")] none
        [Xml.node "c" [("r", "A3")] none [Xml.node "v" [] (some "7") []]],
       Xml.node "row" [("r", "1"), ("spans", "1:1")] none
        [Xml.node "c" [("r", "A1")] none [Xml.node "v" [] (some "9") []]]])
    [((3 : Int), [CellValue.int 7, CellValue.absent]), ((1 : Int), [CellValue.int 9])] 3
    rfl rfl (by decide) (by decide) rfl
  exact ⟨h.1.trans (by rfl), by rfl⟩

/-! ## C10 -/

/-- Inversion of a successful nonnegative-index Python assignment. -/
theorem listSetPy_ok_inv (l : List α) (i : Int) (a : α) (l2 : List α)
    (h0 : 0 ≤ i) (h : listSetPy l i a = .ok l2) :
    l2 = l.set i.toNat a ∧ i < (l.length : Int) := by
  simp only [listSetPy] at h
  rw [if_neg (show ¬ i < 0 by omega)] at h
  split at h
  · rename_i hcond
    cases h
    exact ⟨rfl, hcond.2⟩
  · exact Except.noConfusion h

/-- A cell application leaves slot `j` unchanged when every cell
targeting column `j` has no `v` child (in particular, a v-less cell
writes nothing at all). -/
theorem applyCell_preserves (shared : List (Option String)) (row row2 : Row) (c : Xml)
    (j : Nat)
    (hc : ∀ i2 : Int, colOfCell c = some i2 →
      0 ≤ i2 ∧ (i2.toNat = j → c.children.find? (fun v => v.tag == "v") = none))
    (h : applyCell shared row c = .ok row2) :
    row2.getD j .absent = row.getD j .absent := by
  simp only [applyCell, Bind.bind, Except.bind] at h
  cases har : c.attrGet "r" with
  | none =>
    simp only [har] at h
    exact Except.noConfusion h
  | some ref =>
  simp only [har] at h
  cases hach : ref.toList.head? with
  | none =>
    simp only [hach] at h
    exact Except.noConfusion h
  | some c0 =>
  simp only [hach] at h
  have hcol : colOfCell c = some ((c0.toNat : Int) - 65) := by
    simp [colOfCell, har, Option.bind]
    exact ⟨c0, by simpa [String.toList] using hach, rfl⟩
  cases hvnode : c.children.find? (fun v => v.tag == "v") with
  | none =>
    simp only [hvnode] at h
    cases h
    rfl
  | some vnode =>
  simp only [hvnode] at h
  have hcc := hc _ hcol
  have hne : ((c0.toNat : Int) - 65).toNat ≠ j := by
    intro hj
    rw [hcc.2 hj] at hvnode
    exact Option.noConfusion hvnode
  split at h
  · cases htext : vnode.text with
    | none =>
      simp only [htext] at h
      exact Except.noConfusion h
    | some idxStr =>
    simp only [htext] at h
    cases hparse : pyParseInt idxStr with
    | none =>
      simp only [hparse] at h
      exact Except.noConfusion h
    | some idx =>
    simp only [hparse] at h
    cases hget : listGetPy shared idx with
    | error e =>
      simp only [hget] at h
      exact Except.noConfusion h
    | ok sv =>
    simp only [hget] at h
    have hinv := listSetPy_ok_inv row _ _ row2 hcc.1 h
    rw [hinv.1]
    exact getD_set_ne row _ j _ _ hne
  · have hinv := listSetPy_ok_inv row _ _ row2 hcc.1 h
    rw [hinv.1]
    exact getD_set_ne row _ j _ _ hne

/-- Folding a row's cells preserves slot `j` when no cell writing
column `j` has a value child. -/
theorem foldl_applyCell_preserves (shared : List (Option String)) (j : Nat) :
    ∀ (cells : List Xml) (base row : Row),
      (∀ c2 ∈ cells, ∀ i2 : Int, colOfCell c2 = some i2 →
        0 ≤ i2 ∧ (i2.toNat = j → c2.children.find? (fun v => v.tag == "v") = none)) →
      cells.foldlM (applyCell shared) base = .ok row →
      row.getD j .absent = base.getD j .absent := by
  intro cells
  induction cells with
  | nil =>
    intro base row _ h
    cases h
    rfl
  | cons c rest ih =>
    intro base row hall h
    rw [List.foldlM_cons] at h
    simp only [Bind.bind, Except.bind] at h
    split at h
    · exact Except.noConfusion h
    · rename_i mid hmid
      exact (ih mid row (fun c2 hc2 => hall c2 (List.mem_cons_of_mem _ hc2)) h).trans
        (applyCell_preserves shared base mid c j (hall c (List.mem_cons_self _ _)) hmid)

/-- C10: a cell element with no `v` child performs no write — the row
state is returned untouched regardless of the type marker — so the
pre-sized slot at that cell's column stays absent through the whole
row fold (provided no other cell writes that column). -/
theorem c10_no_value_child (shared : List (Option String)) (c : Xml)
    (hv : c.children.find? (fun v => v.tag == "v") = none) :
    (∀ (row : Row) (ref : String) (ch : Char), c.attrGet "r" = some ref →
      ref.toList.head? = some ch → applyCell shared row c = .ok row) ∧
    (∀ (cells : List Xml) (base row : Row) (j : Nat), c ∈ cells →
      colOfCell c = some (j : Int) →
      (∀ c2 ∈ cells, ∀ i2 : Int, colOfCell c2 = some i2 →
        0 ≤ i2 ∧ (i2.toNat = j → c2.children.find? (fun v => v.tag == "v") = none)) →
      cells.foldlM (applyCell shared) base = .ok row →
      base.getD j .absent = .absent →
      row.getD j .absent = .absent) := by
  constructor
  · intro row ref ch hr hh
    simp only [String.toList] at hh
    simp [applyCell, hr, hh, hv, Bind.bind, Except.bind]
  · intro cells base row j _ _ hall hfold hbase
    rw [foldl_applyCell_preserves shared j cells base row hall hfold]
    exact hbase

/-- C10 (witness): a `t="s"`-marked cell without `v` leaves the row
unchanged, and after folding it together with a cell writing column 0,
column 1 is still absent. -/
theorem c10_no_value_child_witness :
    applyCell [] (List.replicate 2 CellValue.absent) c10CellNoV =
      .ok (List.replicate 2 CellValue.absent) ∧
    ([CellValue.int 4, CellValue.absent] : Row).getD 1 .absent = .absent := by
  refine ⟨(c10_no_value_child [] c10CellNoV rfl).1 _ "B1" 'B' rfl rfl, ?_⟩
  refine (c10_no_value_child [] c10CellNoV rfl).2 [c10CellNoV, c10CellA]
    (List.replicate 2 CellValue.absent) [CellValue.int 4, CellValue.absent] 1
    (List.mem_cons_self _ _) rfl ?_ (by rfl) (by rfl)
  intro c2 hc2 i2 hi2
  rcases List.mem_cons.mp hc2 with h | h
  · subst h
    rw [show colOfCell c10CellNoV = some 1 from rfl] at hi2
    cases hi2
    exact ⟨by decide, fun _ => rfl⟩
  · rcases List.mem_cons.mp h with h2 | h2
    · subst h2
      rw [show colOfCell c10CellA = some 0 from rfl] at hi2
      cases hi2
      exact ⟨le_refl 0, fun hj => absurd hj (by decide)⟩
    · exact absurd h2 (List.not_mem_nil c2)
